import Mathlib

/-!
Shallow embedding of the IVR call-session state machine from
`backend/ivr_simulator_backend.py` (namespace `Backend`) and
`milestone_3/main.py` (namespace `M3`).

Python dictionaries are modelled as association lists with dictionary
semantics (`dictGet`, `dictSet`, `dictDel`); the mutable module-level
state (`active_calls`, `call_history`) becomes an explicit `IVRState`
threaded through the operations; `datetime.now()` and
`random.randint(100000,999999)` become explicit `Nat` parameters of the
operations; `HTTPException` becomes the `Except.error` branch of the
result.
-/

/-- One entry of a node's `options` dict: `{"action": ..., "target": ..., "msg": ...}`.
`target` is optional because only `goto` entries carry it. -/
structure MenuOption where
  action : String
  target : Option String := none
  msg : String
deriving DecidableEq

/-- One node of the `MENU` dict: a prompt and the option table. -/
structure MenuNode where
  prompt : String
  options : List (String × MenuOption)
deriving DecidableEq

/-- The per-call session dict created by `new_call_session` / `create_session`. -/
structure Session where
  call_id : String
  caller_number : String
  start_time : Nat
  end_time : Option Nat := none
  current_menu : String
  menu_path : List String
  inputs : List String
  pnr_buffer : String
deriving DecidableEq

/-- The module-level mutable state: `active_calls` (a dict keyed by call id)
and `call_history` (a list of archived session copies). -/
structure IVRState where
  active_calls : List (String × Session)
  call_history : List Session
deriving DecidableEq

/-- Python `d[k]` / `k in d` lookup on an association list. -/
def dictGet {α : Type} (k : String) : List (String × α) → Option α
  | [] => none
  | (k2, v) :: t => if k2 = k then some v else dictGet k t

/-- Python `d[k] = v`: replace the value at `k` if present, else append. -/
def dictSet {α : Type} (k : String) (v : α) : List (String × α) → List (String × α)
  | [] => [(k, v)]
  | (k2, v2) :: t => if k2 = k then (k, v) :: t else (k2, v2) :: dictSet k v t

/-- Python `del d[k]`: drop the entry (entries) with key `k`. -/
def dictDel {α : Type} (k : String) (l : List (String × α)) : List (String × α) :=
  l.filter (fun p => decide (p.1 ≠ k))

/-- Python `str.isdigit()`: nonempty and every character a decimal digit. -/
def pyIsdigit (s : String) : Bool :=
  !s.data.isEmpty && s.data.all Char.isDigit

/-- The result dict returned by `ivr_dtmf`; absent keys are `none`. -/
structure DtmfResult where
  status : String
  message : Option String := none
  prompt : Option String := none
  collected : Option String := none
  current_menu : Option String := none
  call_action : Option String := none
  valid : Option (List String) := none
deriving DecidableEq

/-- The result dict returned by `ivr_end`. -/
structure EndResult where
  status : String
  call_id : String
deriving DecidableEq

namespace Backend

/-- The `"main"` node of `MENU` in `ivr_simulator_backend.py`. -/
def mainNode : MenuNode :=
  { prompt := "Welcome to HarshAir. For quick access press:\n1 Booking\n2 Flight Status\n3 Baggage Help\n4 Refunds & Cancellations\n5 Seat Selection\n6 Loyalty & Miles\n7 Travel Advisory\n8 Feedback\n9 Talk to Agent",
    options :=
      [("1", { action := "goto", target := some "booking", msg := "Booking selected. Redirecting to booking options." }),
       ("2", { action := "goto", target := some "flight_status", msg := "Flight Status selected. We will ask for your PNR." }),
       ("3", { action := "goto", target := some "baggage", msg := "Baggage help. Few options coming up." }),
       ("4", { action := "goto", target := some "refunds", msg := "Refunds & cancellations. Please choose." }),
       ("5", { action := "goto", target := some "seat", msg := "Seat selection. Help coming." }),
       ("6", { action := "goto", target := some "loyalty", msg := "Loyalty program options." }),
       ("7", { action := "goto", target := some "advisory", msg := "Travel advisory and guidelines." }),
       ("8", { action := "goto", target := some "feedback", msg := "We appreciate feedback. Short survey." }),
       ("9", { action := "transfer", msg := "Connecting to an agent. Please hold." })] }

/-- The `"booking"` node. -/
def bookingNode : MenuNode :=
  { prompt := "Booking — Press 1 New booking, 2 Modify booking, 3 Cancel booking, 0 Back to main.",
    options :=
      [("1", { action := "end", msg := "New booking selected. Our booking team will call you." }),
       ("2", { action := "end", msg := "Modify booking selected. We will email details." }),
       ("3", { action := "end", msg := "Cancel booking selected. Refund policy explained via email." }),
       ("0", { action := "goto", target := some "main", msg := "Returning to main menu." })] }

/-- The `"flight_status"` node: collects a 6-digit PNR terminated by `#`. -/
def flightStatusNode : MenuNode :=
  { prompt := "Please type your 6-digit PNR followed by the hash key.",
    options := [("#", { action := "lookup_pnr", msg := "Checking PNR..." })] }

/-- The `"baggage"` node. -/
def baggageNode : MenuNode :=
  { prompt := "Baggage — Press 1 Lost item, 2 Excess baggage charges, 0 Back.",
    options :=
      [("1", { action := "end", msg := "Lost item reported. We'll initiate tracing." }),
       ("2", { action := "end", msg := "Excess baggage info: charges apply as per fare rules." }),
       ("0", { action := "goto", target := some "main", msg := "Back to main menu." })] }

/-- The `"refunds"` node. -/
def refundsNode : MenuNode :=
  { prompt := "Refunds — Press 1 Fare rules, 2 Request refund, 0 Back.",
    options :=
      [("1", { action := "end", msg := "Fare rules guided to your email." }),
       ("2", { action := "end", msg := "Refund request received. We will process it." }),
       ("0", { action := "goto", target := some "main", msg := "Back to main." })] }

/-- The `"seat"` node. -/
def seatNode : MenuNode :=
  { prompt := "Seat Selection — Press 1 Aisle, 2 Window, 3 Extra legroom, 0 Back.",
    options :=
      [("1", { action := "end", msg := "Aisle preference noted." }),
       ("2", { action := "end", msg := "Window preference noted." }),
       ("3", { action := "end", msg := "Extra legroom request recorded." }),
       ("0", { action := "goto", target := some "main", msg := "Back to main." })] }

/-- The `"loyalty"` node. -/
def loyaltyNode : MenuNode :=
  { prompt := "Loyalty — Press 1 Check miles, 2 Redeem miles, 0 Back.",
    options :=
      [("1", { action := "end", msg := "Miles balance will be sent to your registered email." }),
       ("2", { action := "end", msg := "Redeem flow initiated. Agent will assist." }),
       ("0", { action := "goto", target := some "main", msg := "Back to main." })] }

/-- The `"advisory"` node. -/
def advisoryNode : MenuNode :=
  { prompt := "Travel advisory — Press 1 Covid rules, 2 Visa & docs, 0 Back.",
    options :=
      [("1", { action := "end", msg := "Covid travel guidelines: check official site." }),
       ("2", { action := "end", msg := "Visa & docs details: refer to airline website." }),
       ("0", { action := "goto", target := some "main", msg := "Back to main." })] }

/-- The `"feedback"` node. -/
def feedbackNode : MenuNode :=
  { prompt := "Feedback — Press 1 Rate 1-3, 2 Rate 4-5, 0 Back.",
    options :=
      [("1", { action := "end", msg := "Thanks for your feedback. We'll improve." }),
       ("2", { action := "end", msg := "Thanks! Glad you had a great experience." }),
       ("0", { action := "goto", target := some "main", msg := "Back to main." })] }

/-- The `MENU` dict of `ivr_simulator_backend.py`. -/
def MENU : List (String × MenuNode) :=
  [("main", mainNode), ("booking", bookingNode), ("flight_status", flightStatusNode),
   ("baggage", baggageNode), ("refunds", refundsNode), ("seat", seatNode),
   ("loyalty", loyaltyNode), ("advisory", advisoryNode), ("feedback", feedbackNode)]

/-- `new_call_session`: build the fresh session dict and store it under
`CALL_<r>` where `r` stands for the value drawn by
`random.randint(100000,999999)`; `now` stands for `datetime.now()`. -/
def new_call_session (r now : Nat) (caller_number : String) (st : IVRState) :
    String × IVRState :=
  let cid := "CALL_" ++ toString r
  let session : Session :=
    { call_id := cid, caller_number := caller_number, start_time := now,
      end_time := none, current_menu := "main", menu_path := ["main"],
      inputs := [], pnr_buffer := "" }
  (cid, { st with active_calls := dictSet cid session st.active_calls })

/-- `ivr_dtmf`: the core DTMF handler. The `Except.error` branch models the
`HTTPException(404)` raised when the call id is not active; `KeyError`
errors model Python dict access on a missing `target` (dead code for the
concrete `MENU`). -/
def ivr_dtmf (now : Nat) (call_id digit : String) (st : IVRState) :
    Except String DtmfResult × IVRState :=
  match dictGet call_id st.active_calls with
  | none => (Except.error "Call session not found", st)
  | some session0 =>
    let menu_key := session0.current_menu
    let session1 := { session0 with inputs := session0.inputs ++ [digit] }
    match dictGet menu_key MENU with
    | none =>
        (Except.ok { status := "error", message := some "Invalid menu state" },
         { st with active_calls := dictSet call_id session1 st.active_calls })
    | some menu =>
      if menu_key = "flight_status" ∧ digit ≠ "#" then
        if pyIsdigit digit then
          let session2 := { session1 with pnr_buffer := session1.pnr_buffer ++ digit }
          if session2.pnr_buffer.length < 6 then
            (Except.ok { status := "collecting",
                         prompt := some ("You entered " ++ digit ++ ". Enter remaining digits."),
                         collected := some session2.pnr_buffer },
             { st with active_calls := dictSet call_id session2 st.active_calls })
          else
            (Except.ok { status := "collecting",
                         prompt := some "You entered 6 digits. Press # to confirm PNR or press * to restart.",
                         collected := some session2.pnr_buffer },
             { st with active_calls := dictSet call_id session2 st.active_calls })
        else
          (Except.ok { status := "invalid",
                       prompt := some "Only digits are allowed for PNR. Please enter numbers." },
           { st with active_calls := dictSet call_id session1 st.active_calls })
      else
        match dictGet digit menu.options with
        | none =>
            (Except.ok { status := "invalid", prompt := some "Invalid option. Please try again.",
                         valid := some (menu.options.map Prod.fst) },
             { st with active_calls := dictSet call_id session1 st.active_calls })
        | some opt =>
          if opt.action = "goto" then
            match opt.target with
            | none =>
                (Except.error "KeyError: target",
                 { st with active_calls := dictSet call_id session1 st.active_calls })
            | some target =>
              let session2 := { session1 with current_menu := target,
                                              menu_path := session1.menu_path ++ [target] }
              match dictGet target MENU with
              | none =>
                  (Except.error "KeyError: MENU[target]",
                   { st with active_calls := dictSet call_id session2 st.active_calls })
              | some tnode =>
                  (Except.ok { status := "processed", message := some opt.msg,
                               prompt := some tnode.prompt, current_menu := some target },
                   { st with active_calls := dictSet call_id session2 st.active_calls })
          else if opt.action = "end" then
            let session2 := { session1 with end_time := some now }
            (Except.ok { status := "call_ended", message := some opt.msg,
                         call_action := some "hangup" },
             { st with active_calls := dictDel call_id st.active_calls,
                       call_history := st.call_history ++ [session2] })
          else if opt.action = "transfer" then
            let session2 := { session1 with end_time := some now }
            (Except.ok { status := "transferring", message := some opt.msg,
                         call_action := some "transfer" },
             { st with active_calls := dictDel call_id st.active_calls,
                       call_history := st.call_history ++ [session2] })
          else if opt.action = "lookup_pnr" then
            let pnr := session1.pnr_buffer
            if pnr.length = 6 then
              let session2 := { session1 with end_time := some now }
              (Except.ok { status := "pnr_found",
                           message := some ("PNR " ++ pnr ++ " confirmed. Flight HS123 Pune → Mumbai.") },
               { st with active_calls := dictDel call_id st.active_calls,
                         call_history := st.call_history ++ [session2] })
            else
              let session2 := { session1 with pnr_buffer := "" }
              (Except.ok { status := "invalid_pnr",
                           message := some "PNR invalid or incomplete. Returning to main menu.",
                           call_action := some "hangup" },
               { st with active_calls := dictSet call_id session2 st.active_calls })
          else
            (Except.ok { status := "error", message := some "Unhandled action" },
             { st with active_calls := dictSet call_id session1 st.active_calls })

/-- `ivr_end`: archive the session if active, else report `not_found`. -/
def ivr_end (now : Nat) (call_id : String) (st : IVRState) : EndResult × IVRState :=
  match dictGet call_id st.active_calls with
  | some session =>
    let session2 := { session with end_time := some now }
    ({ status := "ended", call_id := call_id },
     { st with active_calls := dictDel call_id st.active_calls,
               call_history := st.call_history ++ [session2] })
  | none => ({ status := "not_found", call_id := call_id }, st)

end Backend

namespace M3

/-- The `"flight_status"` node of `MENU` in `milestone_3/main.py` (its prompt
differs from the backend variant; the remaining nodes are verbatim identical
between the two files, so they are shared below). -/
def flightStatusNode : MenuNode :=
  { prompt := "Please type your 6-digit PNR followed by the hash.",
    options := [("#", { action := "lookup_pnr", msg := "Checking PNR..." })] }

/-- The `MENU` dict of `milestone_3/main.py`. Except for `flight_status`,
every node literal in that file is character-for-character the same as in
`ivr_simulator_backend.py`. -/
def MENU : List (String × MenuNode) :=
  [("main", Backend.mainNode), ("booking", Backend.bookingNode),
   ("flight_status", flightStatusNode), ("baggage", Backend.baggageNode),
   ("refunds", Backend.refundsNode), ("seat", Backend.seatNode),
   ("loyalty", Backend.loyaltyNode), ("advisory", Backend.advisoryNode),
   ("feedback", Backend.feedbackNode)]

/-- `create_session` of `milestone_3/main.py` (same body as the backend's
`new_call_session`). -/
def create_session (r now : Nat) (caller_number : String) (st : IVRState) :
    String × IVRState :=
  let cid := "CALL_" ++ toString r
  let session : Session :=
    { call_id := cid, caller_number := caller_number, start_time := now,
      end_time := none, current_menu := "main", menu_path := ["main"],
      inputs := [], pnr_buffer := "" }
  (cid, { st with active_calls := dictSet cid session st.active_calls })

/-- `ivr_dtmf` of `milestone_3/main.py`: identical control flow to the backend
variant, different response strings. -/
def ivr_dtmf (now : Nat) (call_id digit : String) (st : IVRState) :
    Except String DtmfResult × IVRState :=
  match dictGet call_id st.active_calls with
  | none => (Except.error "session missing", st)
  | some session0 =>
    let menu_key := session0.current_menu
    let session1 := { session0 with inputs := session0.inputs ++ [digit] }
    match dictGet menu_key MENU with
    | none =>
        (Except.ok { status := "error", message := some "bad menu" },
         { st with active_calls := dictSet call_id session1 st.active_calls })
    | some menu =>
      if menu_key = "flight_status" ∧ digit ≠ "#" then
        if pyIsdigit digit then
          let session2 := { session1 with pnr_buffer := session1.pnr_buffer ++ digit }
          if session2.pnr_buffer.length < 6 then
            (Except.ok { status := "collecting",
                         prompt := some "Digit received. Enter more digits.",
                         collected := some session2.pnr_buffer },
             { st with active_calls := dictSet call_id session2 st.active_calls })
          else
            (Except.ok { status := "collecting",
                         prompt := some "6 digits received. Press # to confirm or * to restart.",
                         collected := some session2.pnr_buffer },
             { st with active_calls := dictSet call_id session2 st.active_calls })
        else
          (Except.ok { status := "invalid",
                       prompt := some "Please enter digits only for PNR." },
           { st with active_calls := dictSet call_id session1 st.active_calls })
      else
        match dictGet digit menu.options with
        | none =>
            (Except.ok { status := "invalid", prompt := some "Invalid option. Try again.",
                         valid := some (menu.options.map Prod.fst) },
             { st with active_calls := dictSet call_id session1 st.active_calls })
        | some opt =>
          if opt.action = "goto" then
            match opt.target with
            | none =>
                (Except.error "KeyError: target",
                 { st with active_calls := dictSet call_id session1 st.active_calls })
            | some target =>
              let session2 := { session1 with current_menu := target,
                                              menu_path := session1.menu_path ++ [target] }
              match dictGet target MENU with
              | none =>
                  (Except.error "KeyError: MENU[target]",
                   { st with active_calls := dictSet call_id session2 st.active_calls })
              | some tnode =>
                  (Except.ok { status := "processed", message := some opt.msg,
                               prompt := some tnode.prompt, current_menu := some target },
                   { st with active_calls := dictSet call_id session2 st.active_calls })
          else if opt.action = "end" then
            let session2 := { session1 with end_time := some now }
            (Except.ok { status := "call_ended", message := some opt.msg,
                         call_action := some "hangup" },
             { st with active_calls := dictDel call_id st.active_calls,
                       call_history := st.call_history ++ [session2] })
          else if opt.action = "transfer" then
            let session2 := { session1 with end_time := some now }
            (Except.ok { status := "transferring", message := some opt.msg,
                         call_action := some "transfer" },
             { st with active_calls := dictDel call_id st.active_calls,
                       call_history := st.call_history ++ [session2] })
          else if opt.action = "lookup_pnr" then
            let pnr := session1.pnr_buffer
            if pnr.length = 6 then
              let session2 := { session1 with end_time := some now }
              (Except.ok { status := "pnr_found",
                           message := some ("PNR " ++ pnr ++ " confirmed. Flight HS123 Pune->Mumbai") },
               { st with active_calls := dictDel call_id st.active_calls,
                         call_history := st.call_history ++ [session2] })
            else
              let session2 := { session1 with pnr_buffer := "" }
              (Except.ok { status := "invalid_pnr",
                           message := some "PNR incomplete. Returning to main.",
                           call_action := some "hangup" },
               { st with active_calls := dictSet call_id session2 st.active_calls })
          else
            (Except.ok { status := "error", message := some "unhandled" },
             { st with active_calls := dictSet call_id session1 st.active_calls })

/-- `ivr_end` of `milestone_3/main.py` (same behavior as the backend's). -/
def ivr_end (now : Nat) (call_id : String) (st : IVRState) : EndResult × IVRState :=
  match dictGet call_id st.active_calls with
  | some session =>
    let session2 := { session with end_time := some now }
    ({ status := "ended", call_id := call_id },
     { st with active_calls := dictDel call_id st.active_calls,
               call_history := st.call_history ++ [session2] })
  | none => ({ status := "not_found", call_id := call_id }, st)

end M3

/-! ### Association-list (Python dict) lemmas -/

theorem dictGet_mem {α : Type} {k : String} {v : α} :
    ∀ {l : List (String × α)}, dictGet k l = some v → (k, v) ∈ l := by
  intro l
  induction l with
  | nil => intro h; simp [dictGet] at h
  | cons hd t ih =>
    obtain ⟨k2, v2⟩ := hd
    intro h
    simp only [dictGet] at h
    by_cases hk : k2 = k
    · rw [if_pos hk] at h
      subst hk
      cases h
      exact List.mem_cons_self _ _
    · rw [if_neg hk] at h
      exact List.mem_cons_of_mem _ (ih h)

theorem mem_dictSet {α : Type} {p : String × α} {k : String} {v : α} :
    ∀ {l : List (String × α)}, p ∈ dictSet k v l → p = (k, v) ∨ p ∈ l := by
  intro l
  induction l with
  | nil => intro h; simp [dictSet] at h; simp [h]
  | cons hd t ih =>
    obtain ⟨k2, v2⟩ := hd
    intro h
    simp only [dictSet] at h
    by_cases hk : k2 = k
    · rw [if_pos hk] at h
      rcases List.mem_cons.mp h with h1 | h1
      · exact Or.inl h1
      · exact Or.inr (List.mem_cons_of_mem _ h1)
    · rw [if_neg hk] at h
      rcases List.mem_cons.mp h with h1 | h1
      · exact Or.inr (h1 ▸ List.mem_cons_self _ _)
      · rcases ih h1 with h2 | h2
        · exact Or.inl h2
        · exact Or.inr (List.mem_cons_of_mem _ h2)

theorem mem_dictDel {α : Type} {p : String × α} {k : String} {l : List (String × α)}
    (h : p ∈ dictDel k l) : p ∈ l :=
  (List.mem_filter.mp h).1

theorem dictGet_dictSet_self {α : Type} {k : String} {v : α} :
    ∀ {l : List (String × α)}, dictGet k (dictSet k v l) = some v := by
  intro l
  induction l with
  | nil => simp [dictGet, dictSet]
  | cons hd t ih =>
    obtain ⟨k2, v2⟩ := hd
    simp only [dictSet]
    by_cases hk : k2 = k
    · rw [if_pos hk]; simp [dictGet]
    · rw [if_neg hk]; simp only [dictGet]; rw [if_neg hk]; exact ih

theorem dictDel_cons_eq {α : Type} {k : String} {v : α} {t : List (String × α)} :
    dictDel k ((k, v) :: t) = dictDel k t := by
  simp [dictDel, List.filter]

theorem dictDel_cons_ne {α : Type} {k k2 : String} {v : α} {t : List (String × α)}
    (h : k2 ≠ k) : dictDel k ((k2, v) :: t) = (k2, v) :: dictDel k t := by
  simp [dictDel, List.filter, h]

theorem dictGet_dictDel_self {α : Type} {k : String} :
    ∀ {l : List (String × α)}, dictGet k (dictDel k l) = none := by
  intro l
  induction l with
  | nil => simp [dictGet, dictDel]
  | cons hd t ih =>
    obtain ⟨k2, v2⟩ := hd
    by_cases hk : k2 = k
    · subst hk
      rw [dictDel_cons_eq]
      exact ih
    · rw [dictDel_cons_ne hk]
      simp only [dictGet]
      rw [if_neg hk]
      exact ih

theorem dictGet_dictDel_ne {α : Type} {k k2 : String} (hne : k2 ≠ k) :
    ∀ {l : List (String × α)}, dictGet k2 (dictDel k l) = dictGet k2 l := by
  intro l
  induction l with
  | nil => simp [dictGet, dictDel]
  | cons hd t ih =>
    obtain ⟨ka, va⟩ := hd
    by_cases hk : ka = k
    · subst hk
      rw [dictDel_cons_eq]
      rw [show dictGet k2 ((ka, va) :: t) = dictGet k2 t from by
        simp only [dictGet]; rw [if_neg (fun h => hne h.symm)]]
      exact ih
    · rw [dictDel_cons_ne hk]
      simp only [dictGet]
      by_cases hk2 : ka = k2
      · rw [if_pos hk2, if_pos hk2]
      · rw [if_neg hk2, if_neg hk2]
        exact ih

namespace Backend

/-! ### Branch equations for `ivr_dtmf` -/

theorem MENU_flight : dictGet "flight_status" MENU = some flightStatusNode := rfl

theorem MENU_main : dictGet "main" MENU = some mainNode := rfl

theorem dtmf_notfound (now : Nat) (cid d : String) (st : IVRState)
    (hget : dictGet cid st.active_calls = none) :
    ivr_dtmf now cid d st = (Except.error "Call session not found", st) := by
  simp [ivr_dtmf, hget]

theorem dtmf_collect_lt (now : Nat) (cid d : String) (st : IVRState) (s : Session)
    (hget : dictGet cid st.active_calls = some s)
    (hcur : s.current_menu = "flight_status") (hd : d ≠ "#") (hdig : pyIsdigit d = true)
    (hlen : (s.pnr_buffer ++ d).length < 6) :
    ivr_dtmf now cid d st =
      (Except.ok { status := "collecting",
                   prompt := some ("You entered " ++ d ++ ". Enter remaining digits."),
                   collected := some (s.pnr_buffer ++ d) },
       { st with active_calls := dictSet cid { s with inputs := s.inputs ++ [d], pnr_buffer := s.pnr_buffer ++ d } st.active_calls }) := by
  rw [String.length_append] at hlen
  simp [ivr_dtmf, hget, hcur, MENU_flight, hd, hdig, hlen]

theorem dtmf_collect_ge (now : Nat) (cid d : String) (st : IVRState) (s : Session)
    (hget : dictGet cid st.active_calls = some s)
    (hcur : s.current_menu = "flight_status") (hd : d ≠ "#") (hdig : pyIsdigit d = true)
    (hlen : ¬(s.pnr_buffer ++ d).length < 6) :
    ivr_dtmf now cid d st =
      (Except.ok { status := "collecting",
                   prompt := some "You entered 6 digits. Press # to confirm PNR or press * to restart.",
                   collected := some (s.pnr_buffer ++ d) },
       { st with active_calls := dictSet cid { s with inputs := s.inputs ++ [d], pnr_buffer := s.pnr_buffer ++ d } st.active_calls }) := by
  rw [String.length_append] at hlen
  simp [ivr_dtmf, hget, hcur, MENU_flight, hd, hdig, hlen]

theorem dtmf_collect_nondigit (now : Nat) (cid d : String) (st : IVRState) (s : Session)
    (hget : dictGet cid st.active_calls = some s)
    (hcur : s.current_menu = "flight_status") (hd : d ≠ "#") (hdig : pyIsdigit d = false) :
    ivr_dtmf now cid d st =
      (Except.ok { status := "invalid",
                   prompt := some "Only digits are allowed for PNR. Please enter numbers." },
       { st with active_calls :=
           dictSet cid { s with inputs := s.inputs ++ [d] } st.active_calls }) := by
  simp [ivr_dtmf, hget, hcur, MENU_flight, hd, hdig]

theorem dtmf_invalid_option (now : Nat) (cid d : String) (st : IVRState) (s : Session)
    (node : MenuNode) (hget : dictGet cid st.active_calls = some s)
    (hm : dictGet s.current_menu MENU = some node)
    (hnc : ¬(s.current_menu = "flight_status" ∧ d ≠ "#"))
    (hopt : dictGet d node.options = none) :
    ivr_dtmf now cid d st =
      (Except.ok { status := "invalid", prompt := some "Invalid option. Please try again.",
                   valid := some (node.options.map Prod.fst) },
       { st with active_calls :=
           dictSet cid { s with inputs := s.inputs ++ [d] } st.active_calls }) := by
  simp [ivr_dtmf, hget, hm, hnc, hopt]

theorem dtmf_goto (now : Nat) (cid d : String) (st : IVRState) (s : Session)
    (node : MenuNode) (opt : MenuOption) (t : String) (tnode : MenuNode)
    (hget : dictGet cid st.active_calls = some s)
    (hm : dictGet s.current_menu MENU = some node)
    (hnc : ¬(s.current_menu = "flight_status" ∧ d ≠ "#"))
    (hopt : dictGet d node.options = some opt) (hact : opt.action = "goto")
    (htgt : opt.target = some t) (hm2 : dictGet t MENU = some tnode) :
    ivr_dtmf now cid d st =
      (Except.ok { status := "processed", message := some opt.msg,
                   prompt := some tnode.prompt, current_menu := some t },
       { st with active_calls := dictSet cid { s with inputs := s.inputs ++ [d], current_menu := t, menu_path := s.menu_path ++ [t] } st.active_calls }) := by
  simp [ivr_dtmf, hget, hm, hnc, hopt, hact, htgt, hm2]

theorem dtmf_end_action (now : Nat) (cid d : String) (st : IVRState) (s : Session)
    (node : MenuNode) (opt : MenuOption)
    (hget : dictGet cid st.active_calls = some s)
    (hm : dictGet s.current_menu MENU = some node)
    (hnc : ¬(s.current_menu = "flight_status" ∧ d ≠ "#"))
    (hopt : dictGet d node.options = some opt) (hact : opt.action = "end") :
    ivr_dtmf now cid d st =
      (Except.ok { status := "call_ended", message := some opt.msg,
                   call_action := some "hangup" },
       { st with active_calls := dictDel cid st.active_calls,
                 call_history :=
                   st.call_history ++ [{ s with inputs := s.inputs ++ [d], end_time := some now }] }) := by
  simp [ivr_dtmf, hget, hm, hnc, hopt, hact]

theorem dtmf_transfer (now : Nat) (cid d : String) (st : IVRState) (s : Session)
    (node : MenuNode) (opt : MenuOption)
    (hget : dictGet cid st.active_calls = some s)
    (hm : dictGet s.current_menu MENU = some node)
    (hnc : ¬(s.current_menu = "flight_status" ∧ d ≠ "#"))
    (hopt : dictGet d node.options = some opt) (hact : opt.action = "transfer") :
    ivr_dtmf now cid d st =
      (Except.ok { status := "transferring", message := some opt.msg,
                   call_action := some "transfer" },
       { st with active_calls := dictDel cid st.active_calls,
                 call_history :=
                   st.call_history ++ [{ s with inputs := s.inputs ++ [d], end_time := some now }] }) := by
  simp [ivr_dtmf, hget, hm, hnc, hopt, hact]

theorem dtmf_lookup_found (now : Nat) (cid d : String) (st : IVRState) (s : Session)
    (node : MenuNode) (opt : MenuOption)
    (hget : dictGet cid st.active_calls = some s)
    (hm : dictGet s.current_menu MENU = some node)
    (hnc : ¬(s.current_menu = "flight_status" ∧ d ≠ "#"))
    (hopt : dictGet d node.options = some opt) (hact : opt.action = "lookup_pnr")
    (hlen : s.pnr_buffer.length = 6) :
    ivr_dtmf now cid d st =
      (Except.ok { status := "pnr_found",
                   message := some ("PNR " ++ s.pnr_buffer ++ " confirmed. Flight HS123 Pune → Mumbai.") },
       { st with active_calls := dictDel cid st.active_calls,
                 call_history :=
                   st.call_history ++ [{ s with inputs := s.inputs ++ [d], end_time := some now }] }) := by
  simp [ivr_dtmf, hget, hm, hnc, hopt, hact, hlen]

theorem dtmf_lookup_invalid (now : Nat) (cid d : String) (st : IVRState) (s : Session)
    (node : MenuNode) (opt : MenuOption)
    (hget : dictGet cid st.active_calls = some s)
    (hm : dictGet s.current_menu MENU = some node)
    (hnc : ¬(s.current_menu = "flight_status" ∧ d ≠ "#"))
    (hopt : dictGet d node.options = some opt) (hact : opt.action = "lookup_pnr")
    (hlen : s.pnr_buffer.length ≠ 6) :
    ivr_dtmf now cid d st =
      (Except.ok { status := "invalid_pnr",
                   message := some "PNR invalid or incomplete. Returning to main menu.",
                   call_action := some "hangup" },
       { st with active_calls := dictSet cid { s with inputs := s.inputs ++ [d], pnr_buffer := "" } st.active_calls }) := by
  simp [ivr_dtmf, hget, hm, hnc, hopt, hact, hlen]

theorem dtmf_unhandled (now : Nat) (cid d : String) (st : IVRState) (s : Session)
    (node : MenuNode) (opt : MenuOption)
    (hget : dictGet cid st.active_calls = some s)
    (hm : dictGet s.current_menu MENU = some node)
    (hnc : ¬(s.current_menu = "flight_status" ∧ d ≠ "#"))
    (hopt : dictGet d node.options = some opt)
    (h1 : opt.action ≠ "goto") (h2 : opt.action ≠ "end")
    (h3 : opt.action ≠ "transfer") (h4 : opt.action ≠ "lookup_pnr") :
    ivr_dtmf now cid d st =
      (Except.ok { status := "error", message := some "Unhandled action" },
       { st with active_calls :=
           dictSet cid { s with inputs := s.inputs ++ [d] } st.active_calls }) := by
  simp [ivr_dtmf, hget, hm, hnc, hopt, h1, h2, h3, h4]

theorem dtmf_badmenu (now : Nat) (cid d : String) (st : IVRState) (s : Session)
    (hget : dictGet cid st.active_calls = some s)
    (hm : dictGet s.current_menu MENU = none) :
    ivr_dtmf now cid d st =
      (Except.ok { status := "error", message := some "Invalid menu state" },
       { st with active_calls :=
           dictSet cid { s with inputs := s.inputs ++ [d] } st.active_calls }) := by
  simp [ivr_dtmf, hget, hm]

end Backend

/-! ### Path-chain predicates and list helpers -/

theorem head?_append_single {α : Type} (p : List α) (m b : α) (h : p.head? = some m) :
    (p ++ [b]).head? = some m := by
  cases p with
  | nil => simp at h
  | cons x t => simpa using h

theorem getLast?_append_single {α : Type} (p : List α) (b : α) :
    (p ++ [b]).getLast? = some b := by
  induction p with
  | nil => rfl
  | cons x t ih =>
    cases t with
    | nil => rfl
    | cons y t2 =>
      rw [List.cons_append, List.cons_append, List.getLast?_cons_cons,
        show y :: (t2 ++ [b]) = y :: t2 ++ [b] from rfl]
      exact ih

namespace Backend

/-- `b` is reachable from `a` by a single `goto` action of the menu graph. -/
def isGotoEdge (a b : String) : Bool :=
  match dictGet a MENU with
  | none => false
  | some node => node.options.any (fun p => p.2.action == "goto" && p.2.target == some b)

/-- Every consecutive pair of the list is connected by a `goto` action. -/
def chainOk : List String → Bool
  | [] => true
  | [_] => true
  | a :: b :: t => isGotoEdge a b && chainOk (b :: t)

theorem chainOk_append (p : List String) (a b : String)
    (hc : chainOk p = true) (hl : p.getLast? = some a) (he : isGotoEdge a b = true) :
    chainOk (p ++ [b]) = true := by
  induction p with
  | nil => simp at hl
  | cons x t ih =>
    cases t with
    | nil =>
      simp only [List.getLast?_singleton, Option.some.injEq] at hl
      subst hl
      simp [chainOk, he]
    | cons y t2 =>
      rw [List.getLast?_cons_cons] at hl
      simp only [chainOk, Bool.and_eq_true] at hc
      have := ih hc.2 hl
      rw [List.cons_append]
      simp only [chainOk, Bool.and_eq_true]
      refine ⟨hc.1, ?_⟩
      simpa using this

/-- Invariant of a single active session record. -/
def SessionInv (s : Session) : Prop :=
  (dictGet s.current_menu MENU).isSome = true ∧
  s.menu_path.head? = some "main" ∧
  s.menu_path.getLast? = some s.current_menu ∧
  chainOk s.menu_path = true ∧
  (s.current_menu ≠ "flight_status" → s.pnr_buffer = "")

/-- The part of the invariant that survives archiving. -/
def HistInv (s : Session) : Prop :=
  s.menu_path.head? = some "main" ∧ chainOk s.menu_path = true

/-- Invariant of the whole in-memory store. -/
def StateInv (st : IVRState) : Prop :=
  (∀ p ∈ st.active_calls, SessionInv p.2) ∧ (∀ s ∈ st.call_history, HistInv s)

/-- States reachable from the empty store by the three operations. -/
inductive Reachable : IVRState → Prop where
  | init : Reachable { active_calls := [], call_history := [] }
  | start (r now : Nat) (caller : String) (st : IVRState) :
      Reachable st → Reachable (new_call_session r now caller st).2
  | dtmf (now : Nat) (cid d : String) (st : IVRState) :
      Reachable st → Reachable (ivr_dtmf now cid d st).2
  | hangup (now : Nat) (cid : String) (st : IVRState) :
      Reachable st → Reachable (ivr_end now cid st).2

/-- Per-`goto`-option side conditions used in the preservation proof: every
`goto` option of the node carries a target that is a valid `MENU` key and an
edge of the graph. -/
def gotoTargetsOk (key : String) (node : MenuNode) : Bool :=
  node.options.all (fun p =>
    !(p.2.action == "goto") ||
      (match p.2.target with
       | some t => (dictGet t MENU).isSome && isGotoEdge key t
       | none => false))

theorem menu_gotoTargetsOk :
    ∀ key node, dictGet key MENU = some node → gotoTargetsOk key node = true := by
  intro key node h
  have hmem : (key, node) ∈ MENU := dictGet_mem h
  revert hmem
  have : ∀ p ∈ MENU, gotoTargetsOk p.1 p.2 = true := by decide
  intro hmem
  exact this (key, node) hmem

theorem gotoTargetsOk_spec (key : String) (node : MenuNode) (d : String) (opt : MenuOption)
    (hall : gotoTargetsOk key node = true) (hmem : (d, opt) ∈ node.options)
    (hact : opt.action = "goto") :
    ∃ t tnode, opt.target = some t ∧ dictGet t MENU = some tnode ∧ isGotoEdge key t = true := by
  have hfact := List.all_eq_true.mp hall _ hmem
  rw [hact] at hfact
  simp only [beq_self_eq_true, Bool.not_true, Bool.false_or] at hfact
  cases htgt : opt.target with
  | none => rw [htgt] at hfact; simp at hfact
  | some t =>
    rw [htgt] at hfact
    simp only [Bool.and_eq_true, Option.isSome_iff_exists] at hfact
    obtain ⟨⟨tnode, htn⟩, hedge⟩ := hfact
    exact ⟨t, tnode, rfl, htn, hedge⟩

theorem sessionInv_inputs (s : Session) (d : String) (h : SessionInv s) :
    SessionInv { s with inputs := s.inputs ++ [d] } := by
  simpa [SessionInv] using h

theorem stateInv_dictSet (st : IVRState) (cid : String) (s2 : Session)
    (h : StateInv st) (h2 : SessionInv s2) :
    StateInv { st with active_calls := dictSet cid s2 st.active_calls } := by
  constructor
  · intro p hp
    rcases mem_dictSet hp with rfl | hp2
    · exact h2
    · exact h.1 p hp2
  · exact h.2

theorem stateInv_archive (st : IVRState) (cid : String) (s2 : Session)
    (h : StateInv st) (h2 : HistInv s2) :
    StateInv { st with active_calls := dictDel cid st.active_calls,
                       call_history := st.call_history ++ [s2] } := by
  constructor
  · intro p hp
    exact h.1 p (mem_dictDel hp)
  · intro s hs
    rcases List.mem_append.mp hs with hs | hs
    · exact h.2 s hs
    · rw [List.mem_singleton.mp hs]
      exact h2

theorem stateInv_dtmf (now : Nat) (cid d : String) (st : IVRState) (h : StateInv st) :
    StateInv (ivr_dtmf now cid d st).2 := by
  cases hget : dictGet cid st.active_calls with
  | none =>
    rw [dtmf_notfound now cid d st hget]
    exact h
  | some s =>
    have hs : SessionInv s := h.1 (cid, s) (dictGet_mem hget)
    obtain ⟨hsome, hhead, hlast, hchain, hbuf⟩ := hs
    cases hm : dictGet s.current_menu MENU with
    | none => rw [hm] at hsome; simp at hsome
    | some node =>
      by_cases hcur : s.current_menu = "flight_status"
      · by_cases hdh : d = "#"
        · have hnode : node = flightStatusNode := by
            rw [hcur, MENU_flight] at hm
            exact (Option.some.inj hm).symm
          subst hnode
          subst hdh
          have hnc : ¬(s.current_menu = "flight_status" ∧ ("#" : String) ≠ "#") := by simp
          have hopt : dictGet "#" flightStatusNode.options =
              some { action := "lookup_pnr", target := none, msg := "Checking PNR..." } := rfl
          by_cases hlen : s.pnr_buffer.length = 6
          · rw [dtmf_lookup_found now cid "#" st s flightStatusNode _ hget hm hnc hopt rfl hlen]
            exact stateInv_archive _ _ _ h ⟨by simpa using hhead, by simpa using hchain⟩
          · rw [dtmf_lookup_invalid now cid "#" st s flightStatusNode _ hget hm hnc hopt rfl hlen]
            apply stateInv_dictSet _ _ _ h
            exact ⟨by simpa using hsome, by simpa using hhead, by simpa using hlast,
              by simpa using hchain, fun _ => rfl⟩
        · by_cases hdig : pyIsdigit d
          · by_cases hlen : (s.pnr_buffer ++ d).length < 6
            · rw [dtmf_collect_lt now cid d st s hget hcur hdh hdig hlen]
              apply stateInv_dictSet _ _ _ h
              refine ⟨by simpa using hsome, by simpa using hhead, by simpa using hlast,
                by simpa using hchain, ?_⟩
              intro hne
              exact absurd hcur (by simpa using hne)
            · rw [dtmf_collect_ge now cid d st s hget hcur hdh hdig hlen]
              apply stateInv_dictSet _ _ _ h
              refine ⟨by simpa using hsome, by simpa using hhead, by simpa using hlast,
                by simpa using hchain, ?_⟩
              intro hne
              exact absurd hcur (by simpa using hne)
          · rw [dtmf_collect_nondigit now cid d st s hget hcur hdh (by simpa using hdig)]
            exact stateInv_dictSet _ _ _ h
              (sessionInv_inputs s d ⟨hsome, hhead, hlast, hchain, hbuf⟩)
      · have hgoto := menu_gotoTargetsOk _ _ hm
        have hnc : ¬(s.current_menu = "flight_status" ∧ d ≠ "#") := fun hc => hcur hc.1
        cases hopt : dictGet d node.options with
        | none =>
          rw [dtmf_invalid_option now cid d st s node hget hm hnc hopt]
          exact stateInv_dictSet _ _ _ h
            (sessionInv_inputs s d ⟨hsome, hhead, hlast, hchain, hbuf⟩)
        | some opt =>
          have hoptmem : (d, opt) ∈ node.options := dictGet_mem hopt
          by_cases hact : opt.action = "goto"
          · obtain ⟨t, tnode, htgt, hm2, hedge⟩ :=
              gotoTargetsOk_spec s.current_menu node d opt hgoto hoptmem hact
            rw [dtmf_goto now cid d st s node opt t tnode hget hm hnc hopt hact htgt hm2]
            apply stateInv_dictSet _ _ _ h
            refine ⟨by simp [hm2], ?_, ?_, ?_, ?_⟩
            · simpa using head?_append_single s.menu_path "main" t hhead
            · simp [getLast?_append_single s.menu_path t]
            · simpa using chainOk_append s.menu_path s.current_menu t hchain hlast hedge
            · intro _
              simpa using hbuf hcur
          · by_cases hact2 : opt.action = "end"
            · rw [dtmf_end_action now cid d st s node opt hget hm hnc hopt hact2]
              exact stateInv_archive _ _ _ h ⟨by simpa using hhead, by simpa using hchain⟩
            · by_cases hact3 : opt.action = "transfer"
              · rw [dtmf_transfer now cid d st s node opt hget hm hnc hopt hact3]
                exact stateInv_archive _ _ _ h ⟨by simpa using hhead, by simpa using hchain⟩
              · by_cases hact4 : opt.action = "lookup_pnr"
                · have hb : s.pnr_buffer = "" := hbuf hcur
                  have hlen : s.pnr_buffer.length ≠ 6 := by rw [hb]; decide
                  rw [dtmf_lookup_invalid now cid d st s node opt hget hm hnc hopt hact4 hlen]
                  apply stateInv_dictSet _ _ _ h
                  exact ⟨by simpa using hsome, by simpa using hhead, by simpa using hlast,
                    by simpa using hchain, fun _ => rfl⟩
                · rw [dtmf_unhandled now cid d st s node opt hget hm hnc hopt hact hact2 hact3 hact4]
                  exact stateInv_dictSet _ _ _ h
                    (sessionInv_inputs s d ⟨hsome, hhead, hlast, hchain, hbuf⟩)

theorem stateInv_start (r now : Nat) (caller : String) (st : IVRState) (h : StateInv st) :
    StateInv (new_call_session r now caller st).2 := by
  apply stateInv_dictSet _ _ _ h
  exact ⟨rfl, rfl, rfl, rfl, fun _ => rfl⟩

theorem stateInv_end (now : Nat) (cid : String) (st : IVRState) (h : StateInv st) :
    StateInv (ivr_end now cid st).2 := by
  unfold ivr_end
  cases hget : dictGet cid st.active_calls with
  | none => simpa using h
  | some s =>
    have hs : SessionInv s := h.1 (cid, s) (dictGet_mem hget)
    simp only []
    exact stateInv_archive _ _ _ h ⟨by simpa using hs.2.1, by simpa using hs.2.2.2.1⟩

theorem reachable_stateInv (st : IVRState) (h : Reachable st) : StateInv st := by
  induction h with
  | init => exact ⟨by intro p hp; simp at hp, by intro s hs; simp at hs⟩
  | start r now caller st _ ih => exact stateInv_start r now caller st ih
  | dtmf now cid d st _ ih => exact stateInv_dtmf now cid d st ih
  | hangup now cid st _ ih => exact stateInv_end now cid st ih

end Backend

/-! ### Concrete session records used by witnesses and counterexamples -/

/-- A session parked at `flight_status` with a partially collected buffer `"12"`. -/
def fs12session : Session :=
  { call_id := "id1", caller_number := "+1555000", start_time := 0, end_time := none,
    current_menu := "flight_status", menu_path := ["main", "flight_status"],
    inputs := ["2", "1", "2"], pnr_buffer := "12" }

/-- A session parked at `flight_status` with an empty buffer. -/
def fsEmptySession : Session :=
  { call_id := "id1", caller_number := "+1555000", start_time := 0, end_time := none,
    current_menu := "flight_status", menu_path := ["main", "flight_status"],
    inputs := ["2"], pnr_buffer := "" }

/-- A session parked at the root node `main`. -/
def mainMenuSession : Session :=
  { call_id := "id1", caller_number := "+1555000", start_time := 0, end_time := none,
    current_menu := "main", menu_path := ["main"], inputs := [], pnr_buffer := "" }

/-- A session parked at the `booking` submenu. -/
def bookingSession : Session :=
  { call_id := "id1", caller_number := "+1555000", start_time := 0, end_time := none,
    current_menu := "booking", menu_path := ["main", "booking"], inputs := ["1"],
    pnr_buffer := "" }

namespace Backend

/-- C1 (amended): for every active session at `flight_status`, a `#` press with
buffer length ≠ 6 resets the buffer to empty and returns `invalid_pnr`
(`InvalidLookup`) with a hangup directive, and does not move the session to
the main menu — but, contrary to the original claim, the session is NOT
archived and NOT removed from the active set: it stays active at
`flight_status` with the cleared buffer and the call history is unchanged. -/
theorem incomplete_pnr_terminator_keeps_session_active (now : Nat) (cid : String)
    (st : IVRState) (s : Session) (hget : dictGet cid st.active_calls = some s)
    (hcur : s.current_menu = "flight_status") (hlen : s.pnr_buffer.length ≠ 6) :
    (ivr_dtmf now cid "#" st).1 =
      Except.ok { status := "invalid_pnr",
                  message := some "PNR invalid or incomplete. Returning to main menu.",
                  call_action := some "hangup" } ∧
    dictGet cid (ivr_dtmf now cid "#" st).2.active_calls =
      some { s with inputs := s.inputs ++ ["#"], pnr_buffer := "" } ∧
    (ivr_dtmf now cid "#" st).2.call_history = st.call_history := by
  have hm : dictGet s.current_menu MENU = some flightStatusNode := by
    rw [hcur]
    exact MENU_flight
  have e := dtmf_lookup_invalid now cid "#" st s flightStatusNode
      { action := "lookup_pnr", target := none, msg := "Checking PNR..." }
      hget hm (by simp) rfl rfl hlen
  rw [e]
  exact ⟨rfl, dictGet_dictSet_self, rfl⟩

/-- Witness for C1's amended theorem at a concrete state with buffer `"12"`. -/
theorem incomplete_pnr_terminator_keeps_session_active_witness :
    (ivr_dtmf 3 "id1" "#" ⟨[("id1", fs12session)], []⟩).1 =
      Except.ok { status := "invalid_pnr",
                  message := some "PNR invalid or incomplete. Returning to main menu.",
                  call_action := some "hangup" } ∧
    dictGet "id1" (ivr_dtmf 3 "id1" "#" ⟨[("id1", fs12session)], []⟩).2.active_calls =
      some { fs12session with inputs := fs12session.inputs ++ ["#"], pnr_buffer := "" } ∧
    (ivr_dtmf 3 "id1" "#" ⟨[("id1", fs12session)], []⟩).2.call_history = [] :=
  incomplete_pnr_terminator_keeps_session_active 3 "id1" ⟨[("id1", fs12session)], []⟩
    fs12session rfl rfl (by decide)

/-- C1 counterexample to the original claim: at `flight_status` with buffer
`"12"`, feeding `"#"` leaves the session in the active set (it is not removed)
and archives nothing (the history stays empty), so the session is not
terminated. -/
theorem c1_counterexample :
    (dictGet "id1" (ivr_dtmf 3 "id1" "#" ⟨[("id1", fs12session)], []⟩).2.active_calls).isSome =
      true ∧
    (ivr_dtmf 3 "id1" "#" ⟨[("id1", fs12session)], []⟩).2.call_history = [] :=
  ⟨rfl, rfl⟩

/-- C7: at a non-collecting node, a symbol that is not an option key returns
`invalid` together with the node's full option-key list, and the session stays
active at the same position: only `inputs` grows, while `current_menu` and
`menu_path` are unchanged. -/
theorem invalid_symbol_keeps_position (now : Nat) (cid d : String) (st : IVRState)
    (s : Session) (node : MenuNode) (hget : dictGet cid st.active_calls = some s)
    (hm : dictGet s.current_menu MENU = some node)
    (hnc : s.current_menu ≠ "flight_status")
    (hopt : dictGet d node.options = none) :
    (ivr_dtmf now cid d st).1 =
      Except.ok { status := "invalid", prompt := some "Invalid option. Please try again.",
                  valid := some (node.options.map Prod.fst) } ∧
    dictGet cid (ivr_dtmf now cid d st).2.active_calls =
      some { s with inputs := s.inputs ++ [d] } ∧
    (dictGet cid (ivr_dtmf now cid d st).2.active_calls).map Session.current_menu =
      some s.current_menu ∧
    (dictGet cid (ivr_dtmf now cid d st).2.active_calls).map Session.menu_path =
      some s.menu_path := by
  have e := dtmf_invalid_option now cid d st s node hget hm (fun hc => hnc hc.1) hopt
  rw [e]
  refine ⟨rfl, dictGet_dictSet_self, ?_, ?_⟩
  · rw [dictGet_dictSet_self]
    rfl
  · rw [dictGet_dictSet_self]
    rfl

/-- Witness for C7 at the `booking` node with the unassigned symbol `"7"`. -/
theorem invalid_symbol_keeps_position_witness :
    (ivr_dtmf 0 "id1" "7" ⟨[("id1", bookingSession)], []⟩).1 =
      Except.ok { status := "invalid", prompt := some "Invalid option. Please try again.",
                  valid := some ["1", "2", "3", "0"] } ∧
    dictGet "id1" (ivr_dtmf 0 "id1" "7" ⟨[("id1", bookingSession)], []⟩).2.active_calls =
      some { bookingSession with inputs := bookingSession.inputs ++ ["7"] } ∧
    (dictGet "id1"
        (ivr_dtmf 0 "id1" "7" ⟨[("id1", bookingSession)], []⟩).2.active_calls).map
      Session.current_menu = some "booking" ∧
    (dictGet "id1"
        (ivr_dtmf 0 "id1" "7" ⟨[("id1", bookingSession)], []⟩).2.active_calls).map
      Session.menu_path = some ["main", "booking"] :=
  invalid_symbol_keeps_position 0 "id1" "7" ⟨[("id1", bookingSession)], []⟩ bookingSession
    bookingNode rfl rfl (by decide) rfl

/-- C8 (amended): at the root node `main` the digit `"0"` really is unassigned,
and feeding it returns `invalid` with `current_menu` unchanged and the valid
list equal to `main`'s full option-key set. (The digit `"7"` named by the
original claim is assigned: it navigates to `advisory` — see the
counterexample.) -/
theorem unassigned_digit_at_main_invalid (now : Nat) (cid : String) (st : IVRState)
    (s : Session) (hget : dictGet cid st.active_calls = some s)
    (hcur : s.current_menu = "main") :
    (ivr_dtmf now cid "0" st).1 =
      Except.ok { status := "invalid", prompt := some "Invalid option. Please try again.",
                  valid := some ["1", "2", "3", "4", "5", "6", "7", "8", "9"] } ∧
    dictGet cid (ivr_dtmf now cid "0" st).2.active_calls =
      some { s with inputs := s.inputs ++ ["0"] } ∧
    (dictGet cid (ivr_dtmf now cid "0" st).2.active_calls).map Session.current_menu =
      some "main" := by
  have hm : dictGet s.current_menu MENU = some mainNode := by
    rw [hcur]
    exact MENU_main
  have e := dtmf_invalid_option now cid "0" st s mainNode hget hm
      (fun hc => by rw [hcur] at hc; exact absurd hc.1 (by decide)) rfl
  rw [e]
  refine ⟨rfl, dictGet_dictSet_self, ?_⟩
  rw [dictGet_dictSet_self]
  simp [hcur]

/-- Witness for C8's amended theorem. -/
theorem unassigned_digit_at_main_invalid_witness :
    (ivr_dtmf 0 "id1" "0" ⟨[("id1", mainMenuSession)], []⟩).1 =
      Except.ok { status := "invalid", prompt := some "Invalid option. Please try again.",
                  valid := some ["1", "2", "3", "4", "5", "6", "7", "8", "9"] } ∧
    dictGet "id1" (ivr_dtmf 0 "id1" "0" ⟨[("id1", mainMenuSession)], []⟩).2.active_calls =
      some { mainMenuSession with inputs := mainMenuSession.inputs ++ ["0"] } ∧
    (dictGet "id1"
        (ivr_dtmf 0 "id1" "0" ⟨[("id1", mainMenuSession)], []⟩).2.active_calls).map
      Session.current_menu = some "main" :=
  unassigned_digit_at_main_invalid 0 "id1" ⟨[("id1", mainMenuSession)], []⟩ mainMenuSession
    rfl rfl

/-- C8 counterexample to the original claim: at `main` the digit `"7"` is NOT
unassigned — it is dispatched as a `goto` to `advisory`, returning status
`processed` (not `invalid`) and changing `current_menu`. -/
theorem c8_counterexample :
    (ivr_dtmf 0 "id1" "7" ⟨[("id1", mainMenuSession)], []⟩).1 =
      Except.ok { status := "processed", message := some "Travel advisory and guidelines.",
                  prompt := some "Travel advisory — Press 1 Covid rules, 2 Visa & docs, 0 Back.",
                  current_menu := some "advisory" } ∧
    (dictGet "id1"
        (ivr_dtmf 0 "id1" "7" ⟨[("id1", mainMenuSession)], []⟩).2.active_calls).map
      Session.current_menu = some "advisory" :=
  ⟨rfl, rfl⟩

/-- C9: `ivr_end` on an active session returns `ended`, removes the session
from the active set and appends exactly one archive entry; a second `ivr_end`
with the same id returns `not_found` and changes nothing. `ivr_end` on an id
not in the active set returns `not_found` and changes neither the active set
nor the history. -/
theorem end_call_idempotent (n1 n2 : Nat) (cid : String) (st : IVRState) :
    (∀ s, dictGet cid st.active_calls = some s →
      (ivr_end n1 cid st).1 = { status := "ended", call_id := cid } ∧
      (ivr_end n1 cid st).2.call_history =
        st.call_history ++ [{ s with end_time := some n1 }] ∧
      dictGet cid (ivr_end n1 cid st).2.active_calls = none ∧
      (ivr_end n2 cid (ivr_end n1 cid st).2).1 = { status := "not_found", call_id := cid } ∧
      (ivr_end n2 cid (ivr_end n1 cid st).2).2 = (ivr_end n1 cid st).2) ∧
    (dictGet cid st.active_calls = none →
      (ivr_end n1 cid st).1 = { status := "not_found", call_id := cid } ∧
      (ivr_end n1 cid st).2 = st) := by
  constructor
  · intro s hget
    have e1 : ivr_end n1 cid st =
        ({ status := "ended", call_id := cid },
         { st with active_calls := dictDel cid st.active_calls,
                   call_history := st.call_history ++ [{ s with end_time := some n1 }] }) := by
      simp [ivr_end, hget]
    have hnone : dictGet cid (ivr_end n1 cid st).2.active_calls = none := by
      rw [e1]
      exact dictGet_dictDel_self
    have egen : ∀ st2 : IVRState, dictGet cid st2.active_calls = none →
        ivr_end n2 cid st2 = ({ status := "not_found", call_id := cid }, st2) := by
      intro st2 h2
      simp [ivr_end, h2]
    have e2 := egen (ivr_end n1 cid st).2 hnone
    exact ⟨by rw [e1], by rw [e1], hnone, by rw [e2], by rw [e2]⟩
  · intro hget
    have e1 : ivr_end n1 cid st = ({ status := "not_found", call_id := cid }, st) := by
      simp [ivr_end, hget]
    exact ⟨by rw [e1], by rw [e1]⟩

/-- Witness for C9: one concrete previously-active session and one unknown id. -/
theorem end_call_idempotent_witness :
    ((ivr_end 1 "id1" ⟨[("id1", mainMenuSession)], []⟩).1 =
        { status := "ended", call_id := "id1" } ∧
      (ivr_end 1 "id1" ⟨[("id1", mainMenuSession)], []⟩).2.call_history =
        [{ mainMenuSession with end_time := some 1 }] ∧
      dictGet "id1" (ivr_end 1 "id1" ⟨[("id1", mainMenuSession)], []⟩).2.active_calls =
        none ∧
      (ivr_end 2 "id1" (ivr_end 1 "id1" ⟨[("id1", mainMenuSession)], []⟩).2).1 =
        { status := "not_found", call_id := "id1" } ∧
      (ivr_end 2 "id1" (ivr_end 1 "id1" ⟨[("id1", mainMenuSession)], []⟩).2).2 =
        (ivr_end 1 "id1" ⟨[("id1", mainMenuSession)], []⟩).2) ∧
    ((ivr_end 1 "ghost" ⟨[("id1", mainMenuSession)], []⟩).1 =
        { status := "not_found", call_id := "ghost" } ∧
      (ivr_end 1 "ghost" ⟨[("id1", mainMenuSession)], []⟩).2 =
        ⟨[("id1", mainMenuSession)], []⟩) :=
  ⟨(end_call_idempotent 1 2 "id1" ⟨[("id1", mainMenuSession)], []⟩).1 mainMenuSession rfl,
   (end_call_idempotent 1 2 "ghost" ⟨[("id1", mainMenuSession)], []⟩).2 (by decide)⟩

/-- C10: the `digit` parameter is a whole string, not a single key press — at
`flight_status`, any input other than `"#"` that `str.isdigit()` accepts
(nonempty, all decimal digits) is appended to the buffer in one call, so one
`ivr_dtmf` call can grow the buffer by `d.length` characters, in particular
past length 6. -/
theorem multichar_digit_appended_whole (now : Nat) (cid d : String) (st : IVRState)
    (s : Session) (hget : dictGet cid st.active_calls = some s)
    (hcur : s.current_menu = "flight_status") (hd : d ≠ "#")
    (hdig : pyIsdigit d = true) :
    ∃ r : DtmfResult, (ivr_dtmf now cid d st).1 = Except.ok r ∧
      r.status = "collecting" ∧ r.collected = some (s.pnr_buffer ++ d) ∧
      dictGet cid (ivr_dtmf now cid d st).2.active_calls =
        some { s with inputs := s.inputs ++ [d], pnr_buffer := s.pnr_buffer ++ d } := by
  by_cases hlen : (s.pnr_buffer ++ d).length < 6
  · rw [dtmf_collect_lt now cid d st s hget hcur hd hdig hlen]
    exact ⟨_, rfl, rfl, rfl, dictGet_dictSet_self⟩
  · rw [dtmf_collect_ge now cid d st s hget hcur hd hdig hlen]
    exact ⟨_, rfl, rfl, rfl, dictGet_dictSet_self⟩

/-- Witness for C10: the seven-character input `"1234567"` is appended whole
to an empty buffer in a single call, growing it straight past length 6. -/
theorem multichar_digit_appended_whole_witness :
    (∃ r : DtmfResult,
      (ivr_dtmf 0 "id1" "1234567" ⟨[("id1", fsEmptySession)], []⟩).1 = Except.ok r ∧
      r.status = "collecting" ∧
      r.collected = some (fsEmptySession.pnr_buffer ++ "1234567") ∧
      dictGet "id1"
          (ivr_dtmf 0 "id1" "1234567" ⟨[("id1", fsEmptySession)], []⟩).2.active_calls =
        some { fsEmptySession with inputs := fsEmptySession.inputs ++ ["1234567"], pnr_buffer := fsEmptySession.pnr_buffer ++ "1234567" }) ∧
    (fsEmptySession.pnr_buffer ++ "1234567").length = 7 :=
  ⟨multichar_digit_appended_whole 0 "id1" "1234567" ⟨[("id1", fsEmptySession)], []⟩
      fsEmptySession rfl rfl (by decide) (by decide),
   by decide⟩

/-- C2 (amended): in every reachable store, every active session positioned at
a non-collecting node has an empty accumulation buffer (it is emptied on
leaving the collecting node by any action, since the only exits either archive
the session or clear the buffer). The original upper bound `length ≤ 6` at
the collecting node is false — see the counterexample. -/
theorem buffer_empty_off_collecting_node (st : IVRState) (h : Reachable st)
    (cid : String) (s : Session) (hmem : (cid, s) ∈ st.active_calls)
    (hnc : s.current_menu ≠ "flight_status") : s.pnr_buffer = "" :=
  ((reachable_stateInv st h).1 (cid, s) hmem).2.2.2.2 hnc

/-- Witness for C2's amended theorem: the freshly started session sits at
`main` and its buffer is empty. -/
theorem buffer_empty_off_collecting_node_witness :
    Session.pnr_buffer { call_id := "CALL_123456", caller_number := "+1555000", start_time := 0, end_time := none, current_menu := "main", menu_path := ["main"], inputs := [], pnr_buffer := "" } = "" :=
  buffer_empty_off_collecting_node (new_call_session 123456 0 "+1555000" ⟨[], []⟩).2
    (Reachable.start 123456 0 "+1555000" _ Reachable.init) "CALL_123456"
    { call_id := "CALL_123456", caller_number := "+1555000", start_time := 0, end_time := none, current_menu := "main", menu_path := ["main"], inputs := [], pnr_buffer := "" }
    (by decide) (by decide)

/-- The store after: start (drawing 111111), press `"2"` to reach
`flight_status`, then press the single digit `"1"` seven times. -/
def c2state : IVRState :=
  (ivr_dtmf 8 "CALL_111111" "1"
    (ivr_dtmf 7 "CALL_111111" "1"
      (ivr_dtmf 6 "CALL_111111" "1"
        (ivr_dtmf 5 "CALL_111111" "1"
          (ivr_dtmf 4 "CALL_111111" "1"
            (ivr_dtmf 3 "CALL_111111" "1"
              (ivr_dtmf 2 "CALL_111111" "1"
                (ivr_dtmf 1 "CALL_111111" "2"
                  (new_call_session 111111 0 "+1555000" ⟨[], []⟩).2).2).2).2).2).2).2).2).2

/-- C2 counterexample to the original claim: a session reachable by start,
one navigation and seven single-digit `applyInput` calls is active at the
collecting node with `accumulationBuffer` of length 7 — the claimed bound of
6 does not hold. -/
theorem c2_counterexample :
    Reachable c2state ∧
    (dictGet "CALL_111111" c2state.active_calls).map Session.current_menu =
      some "flight_status" ∧
    (dictGet "CALL_111111" c2state.active_calls).map (fun s => s.pnr_buffer.length) =
      some 7 := by
  refine ⟨?_, rfl, by decide⟩
  exact Reachable.dtmf 8 "CALL_111111" "1" _
    (Reachable.dtmf 7 "CALL_111111" "1" _
      (Reachable.dtmf 6 "CALL_111111" "1" _
        (Reachable.dtmf 5 "CALL_111111" "1" _
          (Reachable.dtmf 4 "CALL_111111" "1" _
            (Reachable.dtmf 3 "CALL_111111" "1" _
              (Reachable.dtmf 2 "CALL_111111" "1" _
                (Reachable.dtmf 1 "CALL_111111" "2" _
                  (Reachable.start 111111 0 "+1555000" _ Reachable.init))))))))

/-- C6: in every reachable store, every session — whether still active or
archived — has a non-empty `menu_path` that starts at the root id `"main"`
and in which every consecutive pair of node ids is connected by a `goto`
(`Navigate`) action of the menu graph. -/
theorem reachable_path_wellformed (st : IVRState) (h : Reachable st) (cid : String)
    (s : Session) (hmem : (cid, s) ∈ st.active_calls ∨ s ∈ st.call_history) :
    s.menu_path ≠ [] ∧ s.menu_path.head? = some "main" ∧ chainOk s.menu_path = true := by
  have hI := reachable_stateInv st h
  have hfacts : s.menu_path.head? = some "main" ∧ chainOk s.menu_path = true := by
    rcases hmem with hmem | hmem
    · have hs := hI.1 (cid, s) hmem
      exact ⟨hs.2.1, hs.2.2.2.1⟩
    · exact hI.2 s hmem
  refine ⟨?_, hfacts.1, hfacts.2⟩
  intro hnil
  rw [hnil] at hfacts
  exact absurd hfacts.1 (by simp)

/-- Witness for C6 at the freshly started session, whose path is `["main"]`. -/
theorem reachable_path_wellformed_witness :
    (["main"] : List String) ≠ [] ∧ (["main"] : List String).head? = some "main" ∧
    chainOk ["main"] = true :=
  reachable_path_wellformed (new_call_session 123456 0 "+1555000" ⟨[], []⟩).2
    (Reachable.start 123456 0 "+1555000" _ Reachable.init) "CALL_123456"
    { call_id := "CALL_123456", caller_number := "+1555000", start_time := 0, end_time := none, current_menu := "main", menu_path := ["main"], inputs := [], pnr_buffer := "" }
    (Or.inl (by decide))

/-- C4: session ids are `CALL_<n>` for the unchecked number `n` drawn by
`random.randint(100000,999999)`. When two `startCall`s draw the same number
(here 500000), the generated ids coincide and the second insert overwrites
the first session's active record: afterwards the active set has a single
entry for `CALL_500000` whose caller is the second caller, so ids are neither
fresh nor collision-free as the claim demands. -/
theorem session_id_collision_overwrites :
    (new_call_session 500000 0 "A" ⟨[], []⟩).1 =
      (new_call_session 500000 1 "B" (new_call_session 500000 0 "A" ⟨[], []⟩).2).1 ∧
    ((new_call_session 500000 1 "B" (new_call_session 500000 0 "A" ⟨[], []⟩).2).2.active_calls.map
        (fun p => (p.1, p.2.caller_number))) = [("CALL_500000", "B")] ∧
    (new_call_session 500000 1 "B" (new_call_session 500000 0 "A" ⟨[], []⟩).2).2.active_calls.length = 1 :=
  ⟨rfl, rfl, rfl⟩

end Backend

/-- C3 counterexample: the claimed disagreement between the two variants does
not exist. On an incomplete-PNR terminator press (buffer `"12"`, input `"#"`)
BOTH variants keep the session in the active set (neither archives it — both
histories stay empty) and both merely clear the buffer. -/
theorem c3_counterexample :
    (dictGet "id1" (Backend.ivr_dtmf 3 "id1" "#" ⟨[("id1", fs12session)], []⟩).2.active_calls).isSome = true ∧
    (dictGet "id1" (M3.ivr_dtmf 3 "id1" "#" ⟨[("id1", fs12session)], []⟩).2.active_calls).isSome = true ∧
    (Backend.ivr_dtmf 3 "id1" "#" ⟨[("id1", fs12session)], []⟩).2.call_history = [] ∧
    (M3.ivr_dtmf 3 "id1" "#" ⟨[("id1", fs12session)], []⟩).2.call_history = [] ∧
    (dictGet "id1" (Backend.ivr_dtmf 3 "id1" "#" ⟨[("id1", fs12session)], []⟩).2.active_calls).map Session.pnr_buffer = some "" ∧
    (dictGet "id1" (M3.ivr_dtmf 3 "id1" "#" ⟨[("id1", fs12session)], []⟩).2.active_calls).map Session.pnr_buffer = some "" :=
  ⟨rfl, rfl, rfl, rfl, rfl, rfl⟩

theorem M3_MENU_flight : dictGet "flight_status" M3.MENU = some M3.flightStatusNode := rfl

/-- The incomplete-PNR branch equation for the Twilio-variant `M3.ivr_dtmf`,
mirroring `Backend.dtmf_lookup_invalid`: the buffer is cleared, the session is
written back to the active set, and `invalid_pnr` with a hangup directive is
returned. -/
theorem M3_dtmf_lookup_invalid (now : Nat) (cid d : String) (st : IVRState) (s : Session)
    (node : MenuNode) (opt : MenuOption)
    (hget : dictGet cid st.active_calls = some s)
    (hm : dictGet s.current_menu M3.MENU = some node)
    (hnc : ¬(s.current_menu = "flight_status" ∧ d ≠ "#"))
    (hopt : dictGet d node.options = some opt) (hact : opt.action = "lookup_pnr")
    (hlen : s.pnr_buffer.length ≠ 6) :
    M3.ivr_dtmf now cid d st =
      (Except.ok { status := "invalid_pnr",
                   message := some "PNR incomplete. Returning to main.",
                   call_action := some "hangup" },
       { st with active_calls := dictSet cid { s with inputs := s.inputs ++ [d], pnr_buffer := "" } st.active_calls }) := by
  simp [M3.ivr_dtmf, hget, hm, hnc, hopt, hact, hlen]

/-- C3 (amended): for EVERY store and every active session at `flight_status`
whose buffer length is not 6, the incomplete-PNR terminator press produces
IDENTICAL state effects in the two variants — the same cleared-buffer session
kept in the active set (at `flight_status`, since only the inputs log and the
buffer change) and an unchanged history — and the same status `invalid_pnr`
with the same hangup directive; their `ivr_dtmf` results differ on that input
only in the human-readable message text, so the functions are not literally
equal there, but the archive-vs-keep-alive disagreement claimed by the spec
does not exist. -/
theorem c3_variants_agree_modulo_message (now : Nat) (cid : String) (st : IVRState)
    (s : Session) (hget : dictGet cid st.active_calls = some s)
    (hcur : s.current_menu = "flight_status") (hlen : s.pnr_buffer.length ≠ 6) :
    (Backend.ivr_dtmf now cid "#" st).2 = (M3.ivr_dtmf now cid "#" st).2 ∧
    dictGet cid (Backend.ivr_dtmf now cid "#" st).2.active_calls =
      some { s with inputs := s.inputs ++ ["#"], pnr_buffer := "" } ∧
    (Backend.ivr_dtmf now cid "#" st).2.call_history = st.call_history ∧
    (Backend.ivr_dtmf now cid "#" st).1 =
      Except.ok { status := "invalid_pnr", message := some "PNR invalid or incomplete. Returning to main menu.", call_action := some "hangup" } ∧
    (M3.ivr_dtmf now cid "#" st).1 =
      Except.ok { status := "invalid_pnr", message := some "PNR incomplete. Returning to main.", call_action := some "hangup" } ∧
    (Backend.ivr_dtmf now cid "#" st).1 ≠ (M3.ivr_dtmf now cid "#" st).1 := by
  have hmB : dictGet s.current_menu Backend.MENU = some Backend.flightStatusNode := by
    rw [hcur]
    exact Backend.MENU_flight
  have hmM : dictGet s.current_menu M3.MENU = some M3.flightStatusNode := by
    rw [hcur]
    exact M3_MENU_flight
  have eB := Backend.dtmf_lookup_invalid now cid "#" st s Backend.flightStatusNode
      { action := "lookup_pnr", target := none, msg := "Checking PNR..." }
      hget hmB (by simp) rfl rfl hlen
  have eM := M3_dtmf_lookup_invalid now cid "#" st s M3.flightStatusNode
      { action := "lookup_pnr", target := none, msg := "Checking PNR..." }
      hget hmM (by simp) rfl rfl hlen
  rw [eB, eM]
  refine ⟨rfl, dictGet_dictSet_self, rfl, rfl, rfl, ?_⟩
  simp

/-- Witness for C3's amended theorem at a concrete store whose single session
sits at `flight_status` with buffer `"12"`. -/
theorem c3_variants_agree_modulo_message_witness :
    (Backend.ivr_dtmf 3 "id1" "#" ⟨[("id1", fs12session)], []⟩).2 =
      (M3.ivr_dtmf 3 "id1" "#" ⟨[("id1", fs12session)], []⟩).2 ∧
    dictGet "id1" (Backend.ivr_dtmf 3 "id1" "#" ⟨[("id1", fs12session)], []⟩).2.active_calls =
      some { fs12session with inputs := fs12session.inputs ++ ["#"], pnr_buffer := "" } ∧
    (Backend.ivr_dtmf 3 "id1" "#" ⟨[("id1", fs12session)], []⟩).2.call_history = [] ∧
    (Backend.ivr_dtmf 3 "id1" "#" ⟨[("id1", fs12session)], []⟩).1 =
      Except.ok { status := "invalid_pnr", message := some "PNR invalid or incomplete. Returning to main menu.", call_action := some "hangup" } ∧
    (M3.ivr_dtmf 3 "id1" "#" ⟨[("id1", fs12session)], []⟩).1 =
      Except.ok { status := "invalid_pnr", message := some "PNR incomplete. Returning to main.", call_action := some "hangup" } ∧
    (Backend.ivr_dtmf 3 "id1" "#" ⟨[("id1", fs12session)], []⟩).1 ≠
      (M3.ivr_dtmf 3 "id1" "#" ⟨[("id1", fs12session)], []⟩).1 :=
  c3_variants_agree_modulo_message 3 "id1" ⟨[("id1", fs12session)], []⟩ fs12session
    rfl rfl (by decide)

namespace Backend

/-- C5 (Scenario C): from any active session at `flight_status` with an empty
buffer, the digits 1..5 each return `collecting` with `collected` equal to the
digits so far; the 6th digit returns `collecting` with `collected = "123456"`
and a prompt asking for `#`; then `#` returns `pnr_found` with a message
containing `"123456"`, and the session is removed from the active set and
archived (exactly one record is appended to the history, carrying the
captured code). -/
theorem scenario_c_pnr_capture (t1 t2 t3 t4 t5 t6 t7 : Nat) (cid : String)
    (st : IVRState) (s : Session) (hget : dictGet cid st.active_calls = some s)
    (hcur : s.current_menu = "flight_status") (hbuf : s.pnr_buffer = "") :
    (ivr_dtmf t1 cid "1" st).1 =
      Except.ok { status := "collecting", prompt := some "You entered 1. Enter remaining digits.", collected := some "1" } ∧
    (ivr_dtmf t2 cid "2" (ivr_dtmf t1 cid "1" st).2).1 =
      Except.ok { status := "collecting", prompt := some "You entered 2. Enter remaining digits.", collected := some "12" } ∧
    (ivr_dtmf t3 cid "3" (ivr_dtmf t2 cid "2" (ivr_dtmf t1 cid "1" st).2).2).1 =
      Except.ok { status := "collecting", prompt := some "You entered 3. Enter remaining digits.", collected := some "123" } ∧
    (ivr_dtmf t4 cid "4" (ivr_dtmf t3 cid "3" (ivr_dtmf t2 cid "2" (ivr_dtmf t1 cid "1" st).2).2).2).1 =
      Except.ok { status := "collecting", prompt := some "You entered 4. Enter remaining digits.", collected := some "1234" } ∧
    (ivr_dtmf t5 cid "5" (ivr_dtmf t4 cid "4" (ivr_dtmf t3 cid "3" (ivr_dtmf t2 cid "2" (ivr_dtmf t1 cid "1" st).2).2).2).2).1 =
      Except.ok { status := "collecting", prompt := some "You entered 5. Enter remaining digits.", collected := some "12345" } ∧
    (ivr_dtmf t6 cid "6" (ivr_dtmf t5 cid "5" (ivr_dtmf t4 cid "4" (ivr_dtmf t3 cid "3" (ivr_dtmf t2 cid "2" (ivr_dtmf t1 cid "1" st).2).2).2).2).2).1 =
      Except.ok { status := "collecting", prompt := some "You entered 6 digits. Press # to confirm PNR or press * to restart.", collected := some "123456" } ∧
    (ivr_dtmf t7 cid "#" (ivr_dtmf t6 cid "6" (ivr_dtmf t5 cid "5" (ivr_dtmf t4 cid "4" (ivr_dtmf t3 cid "3" (ivr_dtmf t2 cid "2" (ivr_dtmf t1 cid "1" st).2).2).2).2).2).2).1 =
      Except.ok { status := "pnr_found", message := some "PNR 123456 confirmed. Flight HS123 Pune → Mumbai." } ∧
    (∃ pre post : String, "PNR 123456 confirmed. Flight HS123 Pune → Mumbai." = pre ++ "123456" ++ post) ∧
    dictGet cid (ivr_dtmf t7 cid "#" (ivr_dtmf t6 cid "6" (ivr_dtmf t5 cid "5" (ivr_dtmf t4 cid "4" (ivr_dtmf t3 cid "3" (ivr_dtmf t2 cid "2" (ivr_dtmf t1 cid "1" st).2).2).2).2).2).2).2.active_calls = none ∧
    (∃ arch : Session, (ivr_dtmf t7 cid "#" (ivr_dtmf t6 cid "6" (ivr_dtmf t5 cid "5" (ivr_dtmf t4 cid "4" (ivr_dtmf t3 cid "3" (ivr_dtmf t2 cid "2" (ivr_dtmf t1 cid "1" st).2).2).2).2).2).2).2.call_history = st.call_history ++ [arch] ∧ arch.pnr_buffer = "123456") := by
  have hlen1 : (s.pnr_buffer ++ "1").length < 6 := by rw [hbuf]; decide
  have e1 := dtmf_collect_lt t1 cid "1" st s hget hcur (by decide) (by decide) hlen1
  set s1 : Session := { s with inputs := s.inputs ++ ["1"], pnr_buffer := s.pnr_buffer ++ "1" } with hs1
  have hb1 : s1.pnr_buffer = "1" := by show s.pnr_buffer ++ "1" = "1"; simp [hbuf]
  have hget1 : dictGet cid (ivr_dtmf t1 cid "1" st).2.active_calls = some s1 := by
    rw [e1]; exact dictGet_dictSet_self
  have hlen2 : (s1.pnr_buffer ++ "2").length < 6 := by rw [hb1]; decide
  have e2 := dtmf_collect_lt t2 cid "2" _ s1 hget1 hcur (by decide) (by decide) hlen2
  set s2 : Session := { s1 with inputs := s1.inputs ++ ["2"], pnr_buffer := s1.pnr_buffer ++ "2" } with hs2
  have hb2 : s2.pnr_buffer = "12" := by show s1.pnr_buffer ++ "2" = "12"; simp [hbuf]
  have hget2 : dictGet cid (ivr_dtmf t2 cid "2" (ivr_dtmf t1 cid "1" st).2).2.active_calls = some s2 := by
    rw [e2]; exact dictGet_dictSet_self
  have hlen3 : (s2.pnr_buffer ++ "3").length < 6 := by rw [hb2]; decide
  have e3 := dtmf_collect_lt t3 cid "3" _ s2 hget2 hcur (by decide) (by decide) hlen3
  set s3 : Session := { s2 with inputs := s2.inputs ++ ["3"], pnr_buffer := s2.pnr_buffer ++ "3" } with hs3
  have hb3 : s3.pnr_buffer = "123" := by show s2.pnr_buffer ++ "3" = "123"; simp [hbuf]
  have hget3 : dictGet cid (ivr_dtmf t3 cid "3" (ivr_dtmf t2 cid "2" (ivr_dtmf t1 cid "1" st).2).2).2.active_calls = some s3 := by
    rw [e3]; exact dictGet_dictSet_self
  have hlen4 : (s3.pnr_buffer ++ "4").length < 6 := by rw [hb3]; decide
  have e4 := dtmf_collect_lt t4 cid "4" _ s3 hget3 hcur (by decide) (by decide) hlen4
  set s4 : Session := { s3 with inputs := s3.inputs ++ ["4"], pnr_buffer := s3.pnr_buffer ++ "4" } with hs4
  have hb4 : s4.pnr_buffer = "1234" := by show s3.pnr_buffer ++ "4" = "1234"; simp [hbuf]
  have hget4 : dictGet cid (ivr_dtmf t4 cid "4" (ivr_dtmf t3 cid "3" (ivr_dtmf t2 cid "2" (ivr_dtmf t1 cid "1" st).2).2).2).2.active_calls = some s4 := by
    rw [e4]; exact dictGet_dictSet_self
  have hlen5 : (s4.pnr_buffer ++ "5").length < 6 := by rw [hb4]; decide
  have e5 := dtmf_collect_lt t5 cid "5" _ s4 hget4 hcur (by decide) (by decide) hlen5
  set s5 : Session := { s4 with inputs := s4.inputs ++ ["5"], pnr_buffer := s4.pnr_buffer ++ "5" } with hs5
  have hb5 : s5.pnr_buffer = "12345" := by show s4.pnr_buffer ++ "5" = "12345"; simp [hbuf]
  have hget5 : dictGet cid (ivr_dtmf t5 cid "5" (ivr_dtmf t4 cid "4" (ivr_dtmf t3 cid "3" (ivr_dtmf t2 cid "2" (ivr_dtmf t1 cid "1" st).2).2).2).2).2.active_calls = some s5 := by
    rw [e5]; exact dictGet_dictSet_self
  have hlen6 : ¬(s5.pnr_buffer ++ "6").length < 6 := by rw [hb5]; decide
  have e6 := dtmf_collect_ge t6 cid "6" _ s5 hget5 hcur (by decide) (by decide) hlen6
  set s6 : Session := { s5 with inputs := s5.inputs ++ ["6"], pnr_buffer := s5.pnr_buffer ++ "6" } with hs6
  have hb6 : s6.pnr_buffer = "123456" := by show s5.pnr_buffer ++ "6" = "123456"; simp [hbuf]
  have hget6 : dictGet cid (ivr_dtmf t6 cid "6" (ivr_dtmf t5 cid "5" (ivr_dtmf t4 cid "4" (ivr_dtmf t3 cid "3" (ivr_dtmf t2 cid "2" (ivr_dtmf t1 cid "1" st).2).2).2).2).2).2.active_calls = some s6 := by
    rw [e6]; exact dictGet_dictSet_self
  have hm6 : dictGet s6.current_menu MENU = some flightStatusNode := by
    show dictGet s.current_menu MENU = some flightStatusNode
    rw [hcur]; exact MENU_flight
  have hlen7 : s6.pnr_buffer.length = 6 := by rw [hb6]; rfl
  have e7 := dtmf_lookup_found t7 cid "#" _ s6 flightStatusNode
      { action := "lookup_pnr", target := none, msg := "Checking PNR..." }
      hget6 hm6 (by simp) rfl rfl hlen7
  refine ⟨?_, ?_, ?_, ?_, ?_, ?_, ?_, ?_, ?_, ?_⟩
  · rw [e1]; simp [hbuf]
  · rw [e2]; simp [hbuf]
  · rw [e3]; simp [hbuf]
  · rw [e4]; simp [hbuf]
  · rw [e5]; simp [hbuf]
  · rw [e6]; simp [hbuf]
  · rw [e7]; simp [hbuf]
  · exact ⟨"PNR ", " confirmed. Flight HS123 Pune → Mumbai.", rfl⟩
  · rw [e7]; exact dictGet_dictDel_self
  · rw [e7]
    refine ⟨{ s6 with inputs := s6.inputs ++ ["#"], end_time := some t7 }, ?_, ?_⟩
    · rw [e6, e5, e4, e3, e2, e1]
    · show s6.pnr_buffer = "123456"
      exact hb6

/-- Witness for C5 at a concrete store holding one session parked at
`flight_status` with an empty buffer. -/
theorem scenario_c_pnr_capture_witness :
    (ivr_dtmf 1 "id1" "1" (⟨[("id1", fsEmptySession)], []⟩ : IVRState)).1 =
      Except.ok { status := "collecting", prompt := some "You entered 1. Enter remaining digits.", collected := some "1" } ∧
    (ivr_dtmf 2 "id1" "2" (ivr_dtmf 1 "id1" "1" (⟨[("id1", fsEmptySession)], []⟩ : IVRState)).2).1 =
      Except.ok { status := "collecting", prompt := some "You entered 2. Enter remaining digits.", collected := some "12" } ∧
    (ivr_dtmf 3 "id1" "3" (ivr_dtmf 2 "id1" "2" (ivr_dtmf 1 "id1" "1" (⟨[("id1", fsEmptySession)], []⟩ : IVRState)).2).2).1 =
      Except.ok { status := "collecting", prompt := some "You entered 3. Enter remaining digits.", collected := some "123" } ∧
    (ivr_dtmf 4 "id1" "4" (ivr_dtmf 3 "id1" "3" (ivr_dtmf 2 "id1" "2" (ivr_dtmf 1 "id1" "1" (⟨[("id1", fsEmptySession)], []⟩ : IVRState)).2).2).2).1 =
      Except.ok { status := "collecting", prompt := some "You entered 4. Enter remaining digits.", collected := some "1234" } ∧
    (ivr_dtmf 5 "id1" "5" (ivr_dtmf 4 "id1" "4" (ivr_dtmf 3 "id1" "3" (ivr_dtmf 2 "id1" "2" (ivr_dtmf 1 "id1" "1" (⟨[("id1", fsEmptySession)], []⟩ : IVRState)).2).2).2).2).1 =
      Except.ok { status := "collecting", prompt := some "You entered 5. Enter remaining digits.", collected := some "12345" } ∧
    (ivr_dtmf 6 "id1" "6" (ivr_dtmf 5 "id1" "5" (ivr_dtmf 4 "id1" "4" (ivr_dtmf 3 "id1" "3" (ivr_dtmf 2 "id1" "2" (ivr_dtmf 1 "id1" "1" (⟨[("id1", fsEmptySession)], []⟩ : IVRState)).2).2).2).2).2).1 =
      Except.ok { status := "collecting", prompt := some "You entered 6 digits. Press # to confirm PNR or press * to restart.", collected := some "123456" } ∧
    (ivr_dtmf 7 "id1" "#" (ivr_dtmf 6 "id1" "6" (ivr_dtmf 5 "id1" "5" (ivr_dtmf 4 "id1" "4" (ivr_dtmf 3 "id1" "3" (ivr_dtmf 2 "id1" "2" (ivr_dtmf 1 "id1" "1" (⟨[("id1", fsEmptySession)], []⟩ : IVRState)).2).2).2).2).2).2).1 =
      Except.ok { status := "pnr_found", message := some "PNR 123456 confirmed. Flight HS123 Pune → Mumbai." } ∧
    (∃ pre post : String, "PNR 123456 confirmed. Flight HS123 Pune → Mumbai." = pre ++ "123456" ++ post) ∧
    dictGet "id1" (ivr_dtmf 7 "id1" "#" (ivr_dtmf 6 "id1" "6" (ivr_dtmf 5 "id1" "5" (ivr_dtmf 4 "id1" "4" (ivr_dtmf 3 "id1" "3" (ivr_dtmf 2 "id1" "2" (ivr_dtmf 1 "id1" "1" (⟨[("id1", fsEmptySession)], []⟩ : IVRState)).2).2).2).2).2).2).2.active_calls = none ∧
    (∃ arch : Session, (ivr_dtmf 7 "id1" "#" (ivr_dtmf 6 "id1" "6" (ivr_dtmf 5 "id1" "5" (ivr_dtmf 4 "id1" "4" (ivr_dtmf 3 "id1" "3" (ivr_dtmf 2 "id1" "2" (ivr_dtmf 1 "id1" "1" (⟨[("id1", fsEmptySession)], []⟩ : IVRState)).2).2).2).2).2).2).2.call_history = ([] : List Session) ++ [arch] ∧ arch.pnr_buffer = "123456") :=
  scenario_c_pnr_capture 1 2 3 4 5 6 7 "id1" ⟨[("id1", fsEmptySession)], []⟩
    fsEmptySession rfl rfl rfl

end Backend
